import Mathlib

/-!
Verification of the face-attendance core of the Attendance repository.

The development shallowly embeds the matcher, session state machine,
capture-loop record step, enrollment gate and removal operation of the
repository. Two revisions are embedded where they differ:

* the module app.js together with face.js (namespaces AppJs and FaceJs), and
* the inline script revision (namespace Part003) that carries its own
  vanilla nearest-neighbour matcher and session handling.

External collaborators (the faceapi embedding extractor, its euclidean
distance, the faceapi FaceMatcher delegate, the camera, persistence and the
Gemini advisor) are modelled as parameters or abstract outcomes, exactly at
the interface the source calls them.  Distances are rationals; timestamps
are naturals standing for the wall-clock instants the source formats as ISO
strings.
-/

/-- Face descriptor: the fixed-length numeric vector produced by the external
extractor (faceapi); modelled as a list of rationals. -/
abbrev Descriptor := List ℚ

/-- The string sentinel used by faceapi FaceMatch labels and compared against
in the capture loop of app.js. -/
def unknownLabel : String := "unknown"

/-- A registered student as stored in the students array: a stable id, a
display name, and the enrolled face descriptor (absent when enrollment never
attached one). Extra presentation fields (course, email, photo) play no role
in any claim and are omitted. -/
structure Student where
  id : String
  name : String
  faceDescriptor : Option Descriptor
  deriving DecidableEq

/-- One attendance mark as pushed by the capture loop:
studentId, studentName and the timestamp of the first confident match. -/
structure AttendanceMark where
  studentId : String
  studentName : String
  timestamp : Nat
  deriving DecidableEq

/-- One attendance session with its roster (the attendanceRecords array of
the currentSession object). -/
structure Session where
  id : String
  course : String
  date : String
  attendanceRecords : List AttendanceMark
  deriving DecidableEq

/-- The mutable application state of app.js: the students array, the
historical attendanceRecords collection, the current session and the
recognition interval handle (modelled as a flag). -/
structure AppState where
  students : List Student
  attendanceRecords : List Session
  currentSession : Option Session
  recognitionInterval : Bool
  deriving DecidableEq

namespace FaceJs

/-- Result object of a faceapi FaceMatcher query: a label (a student id or
the unknown sentinel) and a distance. -/
structure FaceMatch where
  label : String
  distance : ℚ
  deriving DecidableEq

/-- The faceapi FaceMatcher value built by face.js createMatcher: the
labeled descriptors (one reference descriptor per student id) and the
recognition threshold handed to the faceapi constructor. -/
structure Matcher where
  labeled : List (String × Descriptor)
  threshold : ℚ
  deriving DecidableEq

/-- Truthiness test used by the filter in face.js createMatcher:
s.faceDescriptor exists and has positive length. -/
def hasNonemptyDescriptor (s : Student) : Bool :=
  match s.faceDescriptor with
  | some d => !d.isEmpty
  | none => false

/-- Embeds face.js createMatcher: with an empty students array the matcher
is cleared to null (modelled as none); otherwise the labeled descriptors are
built from the students that carry a non-empty descriptor, and the matcher is
null again when none survive the filter. -/
def createMatcher (students : List Student) (threshold : ℚ) : Option Matcher :=
  if students.isEmpty then none
  else
    let labeledDescriptors :=
      (students.filter hasNonemptyDescriptor).map
        (fun s => (s.id, s.faceDescriptor.getD []))
    if labeledDescriptors.isEmpty then none
    else some { labeled := labeledDescriptors, threshold := threshold }

/-- Embeds face.js findBestMatch: null (none) when the matcher or the probe
descriptor is missing, otherwise it delegates to the external faceapi
FaceMatcher, modelled as the delegate parameter. -/
def findBestMatch (faceMatcher : Option Matcher) (descriptor : Option Descriptor)
    (delegate : Matcher → Descriptor → FaceMatch) : Option FaceMatch :=
  match faceMatcher, descriptor with
  | some m, some d => some (delegate m d)
  | some _, none => none
  | none, _ => none

/-- Outcome of one call to the external Gemini advisor, at the interface the
source consumes: either the request or the JSON parse fails, or a response
with the isGoodQuality verdict and a reason arrives. -/
inductive AdvisorOutcome where
  | apiError : AdvisorOutcome
  | response (isGoodQuality : Bool) (reason : String) : AdvisorOutcome
  deriving DecidableEq

/-- Value returned by face.js analyzeImageQualityWithGemini. -/
structure QualityResult where
  success : Bool
  reason : String
  deriving DecidableEq

/-- Reason string returned by face.js when no API key is configured. -/
def geminiKeyMissingReason : String := "Gemini API key is not set. Skipping quality check."

/-- Reason string returned by face.js when the advisor call itself fails. -/
def geminiBypassReason : String := "AI quality check failed. Bypassing."

/-- Embeds face.js analyzeImageQualityWithGemini: with a falsy api key it
returns success false with the key-missing reason; an erroring advisor is
caught and bypassed with success true; otherwise the advisor verdict is
passed through. -/
def analyzeImageQualityWithGemini (apiKey : String) (advisor : AdvisorOutcome) :
    QualityResult :=
  if apiKey.isEmpty then { success := false, reason := geminiKeyMissingReason }
  else
    match advisor with
    | AdvisorOutcome.apiError => { success := true, reason := geminiBypassReason }
    | AdvisorOutcome.response good reason => { success := good, reason := reason }

end FaceJs

namespace AppJs

/-- Runtime error surfaced by the embedded javascript fragments; typeError
models a TypeError raised by a property access on null or undefined. -/
inductive JsError where
  | typeError : JsError
  deriving DecidableEq

/-- Embeds the body of the recognition-interval tick of app.js startAttendance
from the point where face.findBestMatch has produced its result, at one fixed
instant now. A missing or unknown match only updates the status text. For a
known label the source looks up the student, then evaluates
this.state.currentSession.attendanceRecords.some; when currentSession is null
that access raises a TypeError (and so does student.id inside the some
callback when the lookup failed on a non-empty roster). A found, not yet
marked student is appended to the roster of the current session. -/
def tickRecordPhase (st : AppState) (matchResult : Option FaceJs.FaceMatch)
    (now : Nat) : Except JsError AppState :=
  match matchResult with
  | none => Except.ok st
  | some m =>
    if m.label == unknownLabel then Except.ok st
    else
      match st.currentSession with
      | none => Except.error JsError.typeError
      | some sess =>
        match st.students.find? (fun s => s.id == m.label) with
        | some stu =>
          if sess.attendanceRecords.any (fun r => r.studentId == stu.id) then
            Except.ok st
          else
            let mark : AttendanceMark :=
              { studentId := stu.id, studentName := stu.name, timestamp := now }
            let sess1 : Session :=
              { sess with attendanceRecords := sess.attendanceRecords ++ [mark] }
            Except.ok { st with currentSession := some sess1 }
        | none =>
          if sess.attendanceRecords.isEmpty then Except.ok st
          else Except.error JsError.typeError

/-- Driver delivering a sequence of confident matches of one identity to the
attendance-recording step, one tick per listed timestamp, stopping at the
first javascript error. Spec-level driver for the at-most-once property. -/
def deliverSame (label : String) (d : ℚ) : AppState → List Nat → Except JsError AppState
  | st, [] => Except.ok st
  | st, now :: rest =>
    match tickRecordPhase st (some { label := label, distance := d }) now with
    | Except.ok st1 => deliverSame label d st1 rest
    | Except.error e => Except.error e

/-- Embeds app.js stopAttendance on the application state: the camera is
released and the recognition interval handle is cleared. -/
def stopAttendance (st : AppState) : AppState :=
  { st with recognitionInterval := false }

/-- Embeds app.js endSession: it first stops attendance, then appends the
current session to the historical attendanceRecords and persists (the boolean
component records whether dbHandler.save ran) only when the session exists
and its roster is non-empty, and finally clears currentSession. -/
def endSession (st : AppState) : AppState × Bool :=
  let st1 := stopAttendance st
  match st1.currentSession with
  | some sess =>
    if 0 < sess.attendanceRecords.length then
      ({ st1 with attendanceRecords := st1.attendanceRecords ++ [sess],
                  currentSession := none }, true)
    else
      ({ st1 with currentSession := none }, false)
  | none => ({ st1 with currentSession := none }, false)

/-- Observable outcome of app.js startAttendance: the loop started, or a
toast warning was shown for a missing session or missing matcher, or the
camera failed to start. -/
inductive StartStatus where
  | started : StartStatus
  | warnNoSession : StartStatus
  | warnNoMatcher : StartStatus
  | cameraFailed : StartStatus
  deriving DecidableEq

/-- Embeds the guards of app.js startAttendance: it returns with a warning
toast when no session is active, then when face.faceMatcher is null, then
returns silently when the camera does not start; only past all three guards
is the recognition interval installed. -/
def startAttendance (st : AppState) (faceMatcher : Option FaceJs.Matcher)
    (cameraOk : Bool) : StartStatus × AppState :=
  match st.currentSession with
  | none => (StartStatus.warnNoSession, st)
  | some _ =>
    match faceMatcher with
    | none => (StartStatus.warnNoMatcher, st)
    | some _ =>
      if cameraOk then
        (StartStatus.started, { st with recognitionInterval := true })
      else (StartStatus.cameraFailed, st)

/-- Embeds the confirmed branch of app.js removeStudent: the students array
is filtered to drop the id, persistence deletes by key, and the matcher is
rebuilt from the filtered array. The result pairs the new students array with
the rebuilt matcher. -/
def removeStudent (students : List Student) (studentId : String) (threshold : ℚ) :
    List Student × Option FaceJs.Matcher :=
  let students1 := students.filter (fun s => !(s.id == studentId))
  (students1, FaceJs.createMatcher students1 threshold)

/-- Outcome of the admission checks of app.js registerStudent that run before
face analysis: photo-quality rejection, missing id or name, duplicate id, or
proceed to descriptor extraction. -/
inductive AdmissionResult where
  | rejectedQuality (reason : String) : AdmissionResult
  | missingFields : AdmissionResult
  | duplicateId : AdmissionResult
  | proceed : AdmissionResult
  deriving DecidableEq

/-- Embeds the guard sequence of app.js registerStudent (after the captured
photo check): the Gemini quality result is consulted first and a failed check
rejects the photo with its reason; then empty id or name and duplicate ids
are rejected; otherwise enrollment proceeds. -/
def registerStudentAdmission (students : List Student)
    (qualityCheck : FaceJs.QualityResult) (id name : String) : AdmissionResult :=
  if !qualityCheck.success then AdmissionResult.rejectedQuality qualityCheck.reason
  else if id.isEmpty || name.isEmpty then AdmissionResult.missingFields
  else if students.any (fun s => s.id == id) then AdmissionResult.duplicateId
  else AdmissionResult.proceed

end AppJs

namespace Part003

/-- Accumulator of the vanilla findBestMatch of the inline script revision:
the best student seen so far (null initially) and its distance (1 initially). -/
structure BestMatch where
  student : Option Student
  distance : ℚ
  deriving DecidableEq

/-- One iteration of the forEach in findBestMatch: students without a face
descriptor are skipped, and the accumulator is replaced exactly when the
distance of this student to the probe is strictly below the best so far. -/
def bmStep (dist : Descriptor → Descriptor → ℚ) (probe : Descriptor)
    (best : BestMatch) (s : Student) : BestMatch :=
  match s.faceDescriptor with
  | none => best
  | some fd =>
    if dist probe fd < best.distance then { student := some s, distance := dist probe fd }
    else best

/-- Embeds the vanilla findBestMatch of the inline script: a fold of bmStep
over the registered students starting from the sentinel accumulator
(student null, distance 1). The euclidean distance is the external faceapi
collaborator, passed as the dist parameter. -/
def findBestMatch (dist : Descriptor → Descriptor → ℚ)
    (registeredStudents : List Student) (probe : Descriptor) : BestMatch :=
  registeredStudents.foldl (bmStep dist probe) { student := none, distance := 1 }

/-- The distances the source computes: one per registered student that has a
face descriptor, in gallery order. Statement-side helper. -/
def galleryDistances (dist : Descriptor → Descriptor → ℚ)
    (registeredStudents : List Student) (probe : Descriptor) : List ℚ :=
  registeredStudents.filterMap (fun s => (s.faceDescriptor).map (fun fd => dist probe fd))

/-- Embeds the acceptance guard of startFaceRecognition,
match.student and match.distance strictly below the threshold, with the
hard-coded 0.6 literal generalized to the threshold parameter that the
settings expose as recognitionThreshold (default 0.6). -/
def isConfidentMatch (bm : BestMatch) (threshold : ℚ) : Bool :=
  bm.student.isSome && decide (bm.distance < threshold)

/-- The recognition threshold literal of the inline script revision. -/
def defaultRecognitionThreshold : ℚ := 0.6

/-- Embeds the endSession of the inline script revision: when a session is
active it is pushed onto the historical attendanceRecords and saveData runs
(third component), regardless of its roster; currentSession is cleared. -/
def endSession (attendanceRecords : List Session) (currentSession : Option Session) :
    List Session × Option Session × Bool :=
  match currentSession with
  | some sess => (attendanceRecords ++ [sess], none, true)
  | none => (attendanceRecords, none, false)

end Part003

/-- Sample enrolled student used by concrete witnesses. -/
def wStudent : Student :=
  { id := "S1", name := "Alice", faceDescriptor := some [0, 0] }

/-- Second sample student, never enrolled, used by removal witnesses. -/
def wGhostId : String := "S9"

/-- Sample active session with an empty roster. -/
def wSession : Session :=
  { id := "sess1", course := "Math101", date := "2026-10-12", attendanceRecords := [] }

/-- Sample mark for the sample student. -/
def wMark : AttendanceMark :=
  { studentId := "S1", studentName := "Alice", timestamp := 3 }

/-- Sample session whose roster already contains the sample student. -/
def wSessionMarked : Session :=
  { id := "sess1", course := "Math101", date := "2026-10-12", attendanceRecords := [wMark] }

/-- Sample application state with one enrolled student and an active empty
session. -/
def wState : AppState :=
  { students := [wStudent], attendanceRecords := [], currentSession := some wSession,
    recognitionInterval := true }

/-- Sample application state whose active session already holds a mark for
the sample student. -/
def wStateMarked : AppState :=
  { students := [wStudent], attendanceRecords := [], currentSession := some wSessionMarked,
    recognitionInterval := true }

/-- Constant distance function standing in for the external euclidean
distance in concrete counterexamples; every probe is at distance 2. -/
def wDistTwo : Descriptor → Descriptor → ℚ := fun _ _ => 2

/-- Distance function whose value is one tenth everywhere, used by witnesses
exercising the match branch. -/
def wDistTenth : Descriptor → Descriptor → ℚ := fun _ _ => 1 / 10

/-- Sample probe descriptor. -/
def wProbe : Descriptor := [1, 1]

/-- Sample non-empty Gemini API key. -/
def wApiKey : String := "k"

/-- Sample application state with no active session. -/
def wStateClosed : AppState :=
  { students := [wStudent], attendanceRecords := [], currentSession := none,
    recognitionInterval := false }

/-- Sample matcher value, as built from the sample student. -/
def wMatcher : FaceJs.Matcher :=
  { labeled := [(wStudent.id, [0, 0])], threshold := 6 / 10 }

/-- Distance function that is zero everywhere, used by witnesses exercising
the match branch with kernel-computable rationals. -/
def wDistZero : Descriptor → Descriptor → ℚ := fun _ _ => 0

/-- Statement-side abbreviation for the state produced by a successful mark:
the current session gains one mark for the student at the given instant. -/
def markedState (st : AppState) (sess : Session) (stu : Student) (now : Nat) : AppState :=
  let mark : AttendanceMark :=
    { studentId := stu.id, studentName := stu.name, timestamp := now }
  let sess1 : Session :=
    { sess with attendanceRecords := sess.attendanceRecords ++ [mark] }
  { st with currentSession := some sess1 }

/-- Sample faceapi result carrying the unknown label. -/
def wUnknownMatch : FaceJs.FaceMatch := { label := unknownLabel, distance := 0 }

/-- Generic helper: filtering a list twice with the same boolean predicate is
the same as filtering it once. -/
theorem filterIdem {α : Type} (p : α → Bool) :
    ∀ l : List α, (l.filter p).filter p = l.filter p := by
  intro l
  induction l with
  | nil => rfl
  | cons x xs ih => cases hx : p x <;> simp [List.filter_cons, hx, ih]

/-- C4: rebuilding the gallery from an empty identity list puts the matcher
into the no-gallery state: face.js clears faceMatcher to null (none here),
and findBestMatch then answers every probe with the no-match result null,
the value every caller treats exactly like the unknown label; the answer does
not depend on the faceapi delegate, so no distance is computed. -/
theorem emptyGalleryNoMatch :
    ∀ (threshold : ℚ) (probe : Option Descriptor)
      (delegate : FaceJs.Matcher → Descriptor → FaceJs.FaceMatch),
    FaceJs.createMatcher [] threshold = none ∧
    FaceJs.findBestMatch (FaceJs.createMatcher [] threshold) probe delegate = none := by
  intro t probe delegate
  refine ⟨rfl, ?_⟩
  cases probe <;> rfl

/-- C9: divergence witnessed against the code. With the Gemini API key
absent, face.js analyzeImageQualityWithGemini returns success false carrying
the key-missing reason (whose own text says the check is being skipped), and
the registerStudent admission therefore rejects the enrollment outright,
whatever the advisor outcome and student data; only the advisor-error path
defaults to success true as the specification demands for an absent or
erroring advisor. -/
theorem qualityGateAbsentKeyRejects :
    ∀ (advisor : FaceJs.AdvisorOutcome) (students : List Student) (id name : String),
    FaceJs.analyzeImageQualityWithGemini "" advisor
      = { success := false, reason := FaceJs.geminiKeyMissingReason } ∧
    AppJs.registerStudentAdmission students
      (FaceJs.analyzeImageQualityWithGemini "" advisor) id name
      = AppJs.AdmissionResult.rejectedQuality FaceJs.geminiKeyMissingReason ∧
    FaceJs.analyzeImageQualityWithGemini wApiKey FaceJs.AdvisorOutcome.apiError
      = { success := true, reason := FaceJs.geminiBypassReason } := by
  intro advisor students id name
  exact ⟨rfl, rfl, rfl⟩

/-- C3: threshold monotonicity of the recognition decision. The best match
itself is computed without consulting the threshold, so its identity and
distance agree at every threshold; accepting at threshold t implies accepting
at any t1 at least t, and reporting unknown at t implies the same at any t1
at most t. -/
theorem thresholdMonotonicity :
    ∀ (dist : Descriptor → Descriptor → ℚ) (students : List Student)
      (probe : Descriptor) (t t1 : ℚ),
    (t ≤ t1 →
      Part003.isConfidentMatch (Part003.findBestMatch dist students probe) t = true →
      Part003.isConfidentMatch (Part003.findBestMatch dist students probe) t1 = true) ∧
    (t1 ≤ t →
      Part003.isConfidentMatch (Part003.findBestMatch dist students probe) t = false →
      Part003.isConfidentMatch (Part003.findBestMatch dist students probe) t1 = false) := by
  intro dist students probe t t1
  have mono : ∀ a b : ℚ, a ≤ b →
      Part003.isConfidentMatch (Part003.findBestMatch dist students probe) a = true →
      Part003.isConfidentMatch (Part003.findBestMatch dist students probe) b = true := by
    intro a b hab h
    simp only [Part003.isConfidentMatch, Bool.and_eq_true, decide_eq_true_eq] at h ⊢
    exact ⟨h.1, lt_of_lt_of_le h.2 hab⟩
  refine ⟨mono t t1, ?_⟩
  intro h1 hfalse
  cases hb : Part003.isConfidentMatch (Part003.findBestMatch dist students probe) t1 with
  | false => rfl
  | true => rw [mono t1 t h1 hb] at hfalse; cases hfalse

/-- Witness for thresholdMonotonicity: with a distance of zero the sample
student is accepted at threshold one, hence still at two; with a distance of
two the result is unknown at threshold one, hence still at zero. -/
theorem thresholdMonotonicity_witness :
    Part003.isConfidentMatch (Part003.findBestMatch wDistZero [wStudent] wProbe) 2 = true ∧
    Part003.isConfidentMatch (Part003.findBestMatch wDistTwo [wStudent] wProbe) 0 = false := by
  constructor
  · exact (thresholdMonotonicity wDistZero [wStudent] wProbe 1 2).1
      (by norm_num) (by decide)
  · exact (thresholdMonotonicity wDistTwo [wStudent] wProbe 1 0).2
      (by norm_num) (by decide)

/-- C7: the capture loop of app.js starts only when a session is active, the
matcher exists (in particular not after a rebuild from an empty gallery) and
the camera is live; with no active session or no matcher it returns a warning
status value, leaving the state unchanged, rather than raising. -/
theorem captureLoopStartGuards :
    ∀ (st : AppState) (faceMatcher : Option FaceJs.Matcher) (cameraOk : Bool)
      (threshold : ℚ),
    (st.currentSession = none →
      AppJs.startAttendance st faceMatcher cameraOk
        = (AppJs.StartStatus.warnNoSession, st)) ∧
    (st.currentSession.isSome = true → faceMatcher = none →
      AppJs.startAttendance st faceMatcher cameraOk
        = (AppJs.StartStatus.warnNoMatcher, st)) ∧
    (st.currentSession.isSome = true →
      AppJs.startAttendance st (FaceJs.createMatcher [] threshold) cameraOk
        = (AppJs.StartStatus.warnNoMatcher, st)) ∧
    ((AppJs.startAttendance st faceMatcher cameraOk).1 = AppJs.StartStatus.started →
      st.currentSession.isSome = true ∧ faceMatcher.isSome = true ∧ cameraOk = true) := by
  intro st faceMatcher cameraOk threshold
  refine ⟨?_, ?_, ?_, ?_⟩
  · intro h; simp [AppJs.startAttendance, h]
  · intro hs hm
    cases hcs : st.currentSession with
    | none => rw [hcs] at hs; cases hs
    | some sess => simp [AppJs.startAttendance, hcs, hm]
  · intro hs
    cases hcs : st.currentSession with
    | none => rw [hcs] at hs; cases hs
    | some sess => simp [AppJs.startAttendance, hcs, FaceJs.createMatcher]
  · intro h
    cases hcs : st.currentSession with
    | none => simp [AppJs.startAttendance, hcs] at h
    | some sess =>
      cases hm : faceMatcher with
      | none => simp [AppJs.startAttendance, hcs, hm] at h
      | some m =>
        cases hc : cameraOk with
        | false => simp [AppJs.startAttendance, hcs, hm, hc] at h
        | true => simp [hcs, hm, hc]

/-- Witness for captureLoopStartGuards at concrete states: a closed state is
refused with the no-session warning, an active state without a matcher is
refused with the no-matcher warning, and the started status at a live camera
implies all three guards held. -/
theorem captureLoopStartGuards_witness :
    AppJs.startAttendance wStateClosed (some wMatcher) true
      = (AppJs.StartStatus.warnNoSession, wStateClosed) ∧
    AppJs.startAttendance wState none true
      = (AppJs.StartStatus.warnNoMatcher, wState) ∧
    (wState.currentSession.isSome = true ∧ (some wMatcher).isSome = true ∧ true = true) := by
  refine ⟨?_, ?_, ?_⟩
  · exact (captureLoopStartGuards wStateClosed (some wMatcher) true 1).1 rfl
  · exact (captureLoopStartGuards wState none true 1).2.1 rfl rfl
  · exact (captureLoopStartGuards wState (some wMatcher) true 1).2.2.2 rfl

/-- C5 counterexample: the inline script revision of endSession persists a
session whose roster is empty. Starting from an empty historical collection
and an active session with zero marks, it appends the session (collection
length becomes one) and runs saveData, refuting that close discards
empty-roster sessions in every cited implementation. -/
theorem endSessionEmptyRosterCounterexample :
    wSession.attendanceRecords = [] ∧
    (Part003.endSession [] (some wSession)).1 = [wSession] ∧
    (Part003.endSession [] (some wSession)).1.length ≠ 0 ∧
    (Part003.endSession [] (some wSession)).2.2 = true := by
  exact ⟨rfl, rfl, by decide, rfl⟩

/-- C5 as amended: in app.js, endSession on an active session with an empty
roster leaves the historical records unchanged and persists nothing, and on
a non-empty roster appends exactly that session and persists it; either way
the current session is cleared. The inline script revision instead appends
and persists the active session unconditionally. -/
theorem endSessionDiscardPolicy :
    ∀ (st : AppState) (sess : Session) (records : List Session),
    (st.currentSession = some sess →
      (sess.attendanceRecords = [] →
        (AppJs.endSession st).1.attendanceRecords = st.attendanceRecords ∧
        (AppJs.endSession st).2 = false ∧
        (AppJs.endSession st).1.currentSession = none) ∧
      (sess.attendanceRecords ≠ [] →
        (AppJs.endSession st).1.attendanceRecords = st.attendanceRecords ++ [sess] ∧
        (AppJs.endSession st).2 = true ∧
        (AppJs.endSession st).1.currentSession = none)) ∧
    Part003.endSession records (some sess) = (records ++ [sess], none, true) := by
  intro st sess records
  refine ⟨?_, rfl⟩
  intro hcs
  constructor
  · intro hempty
    simp [AppJs.endSession, AppJs.stopAttendance, hcs, hempty]
  · intro hne
    have hpos : 0 < sess.attendanceRecords.length := List.length_pos.mpr hne
    simp [AppJs.endSession, AppJs.stopAttendance, hcs, hpos]

/-- Witness for endSessionDiscardPolicy: closing the sample empty session
leaves the records collection empty and does not persist; closing the sample
marked session appends it and persists. -/
theorem endSessionDiscardPolicy_witness :
    ((AppJs.endSession wState).1.attendanceRecords = wState.attendanceRecords ∧
      (AppJs.endSession wState).2 = false ∧
      (AppJs.endSession wState).1.currentSession = none) ∧
    ((AppJs.endSession wStateMarked).1.attendanceRecords
        = wStateMarked.attendanceRecords ++ [wSessionMarked] ∧
      (AppJs.endSession wStateMarked).2 = true ∧
      (AppJs.endSession wStateMarked).1.currentSession = none) := by
  constructor
  · exact ((endSessionDiscardPolicy wState wSession []).1 rfl).1 rfl
  · exact ((endSessionDiscardPolicy wStateMarked wSessionMarked []).1 rfl).2 (by decide)

/-- C8: removal is idempotent. Removing the same id again from the state
produced by a removal returns that very state (same students array, same
rebuilt matcher), and removing an id that is not enrolled leaves the
students array unchanged and rebuilds the matcher from that unchanged
array. -/
theorem removeStudentIdempotent :
    ∀ (students : List Student) (studentId : String) (threshold : ℚ),
    AppJs.removeStudent (AppJs.removeStudent students studentId threshold).1
        studentId threshold
      = AppJs.removeStudent students studentId threshold ∧
    (students.all (fun s => !(s.id == studentId)) = true →
      AppJs.removeStudent students studentId threshold
        = (students, FaceJs.createMatcher students threshold)) := by
  intro students studentId threshold
  constructor
  · unfold AppJs.removeStudent
    rw [filterIdem]
  · intro hall
    have hfix : students.filter (fun s => !(s.id == studentId)) = students := by
      apply List.filter_eq_self.mpr
      intro a ha
      exact (List.all_eq_true.mp hall) a ha
    unfold AppJs.removeStudent
    rw [hfix]

/-- Witness for removeStudentIdempotent: removing the never-enrolled id from
the single-student gallery twice equals removing it once, and removing it
once is a no-op on the students array. -/
theorem removeStudentIdempotent_witness :
    AppJs.removeStudent (AppJs.removeStudent [wStudent] wGhostId 1).1 wGhostId 1
      = AppJs.removeStudent [wStudent] wGhostId 1 ∧
    AppJs.removeStudent [wStudent] wGhostId 1
      = ([wStudent], FaceJs.createMatcher [wStudent] 1) := by
  constructor
  · exact (removeStudentIdempotent [wStudent] wGhostId 1).1
  · exact (removeStudentIdempotent [wStudent] wGhostId 1).2 (by decide)


/-- Helper: a student without a descriptor leaves the fold accumulator
unchanged. -/
theorem bmStep_none (dist : Descriptor → Descriptor → ℚ) (probe : Descriptor)
    (b : Part003.BestMatch) (x : Student) (hfd : x.faceDescriptor = none) :
    Part003.bmStep dist probe b x = b := by
  simp [Part003.bmStep, hfd]

/-- Helper: a student strictly closer than the best so far replaces the
accumulator. -/
theorem bmStep_lt (dist : Descriptor → Descriptor → ℚ) (probe : Descriptor)
    (b : Part003.BestMatch) (x : Student) (fd : Descriptor)
    (hfd : x.faceDescriptor = some fd) (h : dist probe fd < b.distance) :
    Part003.bmStep dist probe b x = { student := some x, distance := dist probe fd } := by
  simp [Part003.bmStep, hfd, h]

/-- Helper: a student not strictly closer than the best so far leaves the
accumulator unchanged. -/
theorem bmStep_ge (dist : Descriptor → Descriptor → ℚ) (probe : Descriptor)
    (b : Part003.BestMatch) (x : Student) (fd : Descriptor)
    (hfd : x.faceDescriptor = some fd) (h : ¬dist probe fd < b.distance) :
    Part003.bmStep dist probe b x = b := by
  simp [Part003.bmStep, hfd, h]

/-- Helper: the gallery distances of a student without a descriptor reduce to
those of the remaining students. -/
theorem galleryDistances_cons_none (dist : Descriptor → Descriptor → ℚ)
    (probe : Descriptor) (x : Student) (xs : List Student)
    (hfd : x.faceDescriptor = none) :
    Part003.galleryDistances dist (x :: xs) probe
      = Part003.galleryDistances dist xs probe := by
  simp [Part003.galleryDistances, List.filterMap_cons, hfd]

/-- Helper: the gallery distances of a student with a descriptor start with
the distance of that descriptor to the probe. -/
theorem galleryDistances_cons_some (dist : Descriptor → Descriptor → ℚ)
    (probe : Descriptor) (x : Student) (xs : List Student) (fd : Descriptor)
    (hfd : x.faceDescriptor = some fd) :
    Part003.galleryDistances dist (x :: xs) probe
      = dist probe fd :: Part003.galleryDistances dist xs probe := by
  simp [Part003.galleryDistances, List.filterMap_cons, hfd]

/-- Helper: the distance component of the vanilla matcher fold equals the
running minimum of the computed gallery distances, seeded by the distance of
the accumulator. -/
theorem bmFold_distance (dist : Descriptor → Descriptor → ℚ) (probe : Descriptor) :
    ∀ (l : List Student) (b : Part003.BestMatch),
    (l.foldl (Part003.bmStep dist probe) b).distance
      = (Part003.galleryDistances dist l probe).foldl min b.distance := by
  intro l
  induction l with
  | nil => intro b; rfl
  | cons x xs ih =>
    intro b
    rw [List.foldl_cons, ih]
    cases hfd : x.faceDescriptor with
    | none => rw [bmStep_none dist probe b x hfd, galleryDistances_cons_none dist probe x xs hfd]
    | some fd =>
      rw [galleryDistances_cons_some dist probe x xs fd hfd, List.foldl_cons]
      by_cases h : dist probe fd < b.distance
      · rw [bmStep_lt dist probe b x fd hfd h, min_eq_right (le_of_lt h)]
      · rw [bmStep_ge dist probe b x fd hfd h, min_eq_left (le_of_not_lt h)]

/-- Helper: once the fold accumulator carries a student, it carries a student
forever. -/
theorem bmFold_isSome (dist : Descriptor → Descriptor → ℚ) (probe : Descriptor) :
    ∀ (l : List Student) (b : Part003.BestMatch),
    b.student.isSome = true →
    ((l.foldl (Part003.bmStep dist probe) b).student).isSome = true := by
  intro l
  induction l with
  | nil => intro b hb; exact hb
  | cons x xs ih =>
    intro b hb
    rw [List.foldl_cons]
    apply ih
    cases hfd : x.faceDescriptor with
    | none => rw [bmStep_none dist probe b x hfd]; exact hb
    | some fd =>
      by_cases h : dist probe fd < b.distance
      · rw [bmStep_lt dist probe b x fd hfd h]; rfl
      · rw [bmStep_ge dist probe b x fd hfd h]; exact hb

/-- Helper: if the fold ends with no student, the accumulator was never
replaced and the result is the initial accumulator itself. -/
theorem bmFold_none_eq (dist : Descriptor → Descriptor → ℚ) (probe : Descriptor) :
    ∀ (l : List Student) (b : Part003.BestMatch),
    (l.foldl (Part003.bmStep dist probe) b).student = none →
    l.foldl (Part003.bmStep dist probe) b = b := by
  intro l
  induction l with
  | nil => intro b _; rfl
  | cons x xs ih =>
    intro b hnone
    rw [List.foldl_cons] at hnone ⊢
    have h1 := ih (Part003.bmStep dist probe b x) hnone
    rw [h1] at hnone ⊢
    cases hfd : x.faceDescriptor with
    | none => exact bmStep_none dist probe b x hfd
    | some fd =>
      by_cases h : dist probe fd < b.distance
      · rw [bmStep_lt dist probe b x fd hfd h] at hnone; cases hnone
      · exact bmStep_ge dist probe b x fd hfd h

/-- Helper: when every computed gallery distance is at least one, the fold
never leaves the sentinel accumulator. -/
theorem bmFold_keep_one (dist : Descriptor → Descriptor → ℚ) (probe : Descriptor) :
    ∀ (l : List Student),
    (∀ q ∈ Part003.galleryDistances dist l probe, (1 : ℚ) ≤ q) →
    l.foldl (Part003.bmStep dist probe) { student := none, distance := 1 }
      = { student := none, distance := 1 } := by
  intro l
  induction l with
  | nil => intro _; rfl
  | cons x xs ih =>
    intro hall
    rw [List.foldl_cons]
    cases hfd : x.faceDescriptor with
    | none =>
      rw [bmStep_none dist probe _ x hfd]
      apply ih
      intro q hq
      apply hall
      rw [galleryDistances_cons_none dist probe x xs hfd]
      exact hq
    | some fd =>
      rw [galleryDistances_cons_some dist probe x xs fd hfd] at hall
      have hone : (1 : ℚ) ≤ dist probe fd := hall (dist probe fd) (List.mem_cons_self _ _)
      rw [bmStep_ge dist probe _ x fd hfd (not_lt.mpr hone)]
      apply ih
      intro q hq
      exact hall q (List.mem_cons_of_mem _ hq)

/-- Helper: if some computed gallery distance is strictly below one, the fold
ends up carrying a student, provided the accumulator is the sentinel when it
carries none. -/
theorem bmFold_some_of_lt (dist : Descriptor → Descriptor → ℚ) (probe : Descriptor) :
    ∀ (l : List Student) (b : Part003.BestMatch),
    (b.student = none → b.distance = 1) →
    (∃ q ∈ Part003.galleryDistances dist l probe, q < 1) →
    ((l.foldl (Part003.bmStep dist probe) b).student).isSome = true := by
  intro l
  induction l with
  | nil =>
    intro b _ hex
    rcases hex with ⟨q, hq, _⟩
    simp [Part003.galleryDistances] at hq
  | cons x xs ih =>
    intro b hN hex
    rw [List.foldl_cons]
    cases hfd : x.faceDescriptor with
    | none =>
      rw [bmStep_none dist probe b x hfd]
      apply ih b hN
      rcases hex with ⟨q, hq, hlt⟩
      rw [galleryDistances_cons_none dist probe x xs hfd] at hq
      exact ⟨q, hq, hlt⟩
    | some fd =>
      by_cases h : dist probe fd < b.distance
      · apply bmFold_isSome
        rw [bmStep_lt dist probe b x fd hfd h]
        rfl
      · rw [bmStep_ge dist probe b x fd hfd h]
        rcases hex with ⟨q, hq, hlt⟩
        rw [galleryDistances_cons_some dist probe x xs fd hfd] at hq
        rcases List.mem_cons.mp hq with hq | hq
        · subst hq
          cases hstu : b.student with
          | none =>
            exfalso
            have h1 : b.distance = 1 := hN hstu
            have h2 : b.distance ≤ dist probe fd := le_of_not_lt h
            rw [h1] at h2
            exact absurd (lt_of_le_of_lt h2 hlt) (lt_irrefl 1)
          | some s =>
            apply bmFold_isSome
            rw [hstu]
            rfl
        · exact ih b hN ⟨q, hq, hlt⟩

/-- Helper: the fold keeps the distance at most one, and strictly below one
whenever a student is carried, provided the accumulator already satisfies
both. -/
theorem bmFold_lt_one (dist : Descriptor → Descriptor → ℚ) (probe : Descriptor) :
    ∀ (l : List Student) (b : Part003.BestMatch),
    b.distance ≤ 1 →
    (∀ s, b.student = some s → b.distance < 1) →
    ((l.foldl (Part003.bmStep dist probe) b).distance ≤ 1 ∧
      ∀ s, (l.foldl (Part003.bmStep dist probe) b).student = some s →
        (l.foldl (Part003.bmStep dist probe) b).distance < 1) := by
  intro l
  induction l with
  | nil => intro b h1 h2; exact ⟨h1, h2⟩
  | cons x xs ih =>
    intro b h1 h2
    rw [List.foldl_cons]
    cases hfd : x.faceDescriptor with
    | none =>
      rw [bmStep_none dist probe b x hfd]
      exact ih b h1 h2
    | some fd =>
      by_cases h : dist probe fd < b.distance
      · rw [bmStep_lt dist probe b x fd hfd h]
        apply ih
        · exact le_of_lt (lt_of_lt_of_le h h1)
        · intro s _
          exact lt_of_lt_of_le h h1
      · rw [bmStep_ge dist probe b x fd hfd h]
        exact ih b h1 h2

/-- Helper: when the fold ends carrying a student, either the accumulator
already carried it and the distance is unchanged, or that student is in the
list and the final distance is the distance of its descriptor to the
probe. -/
theorem bmFold_last_update (dist : Descriptor → Descriptor → ℚ) (probe : Descriptor) :
    ∀ (l : List Student) (b : Part003.BestMatch) (s : Student),
    (l.foldl (Part003.bmStep dist probe) b).student = some s →
    (b.student = some s ∧ (l.foldl (Part003.bmStep dist probe) b).distance = b.distance) ∨
    (s ∈ l ∧ ∃ fd, s.faceDescriptor = some fd ∧
      (l.foldl (Part003.bmStep dist probe) b).distance = dist probe fd) := by
  intro l
  induction l with
  | nil => intro b s hs; exact Or.inl ⟨hs, rfl⟩
  | cons x xs ih =>
    intro b s hs
    rw [List.foldl_cons] at hs ⊢
    rcases ih (Part003.bmStep dist probe b x) s hs with ⟨hb1, hd1⟩ | ⟨hmem, fd, hfd2, hd2⟩
    · cases hfd : x.faceDescriptor with
      | none =>
        rw [bmStep_none dist probe b x hfd] at hb1 hd1 ⊢
        exact Or.inl ⟨hb1, hd1⟩
      | some fd =>
        by_cases h : dist probe fd < b.distance
        · rw [bmStep_lt dist probe b x fd hfd h] at hb1 hd1 ⊢
          have hxs : x = s := by
            have : some x = some s := hb1
            exact Option.some.inj this
          refine Or.inr ⟨?_, fd, ?_, ?_⟩
          · rw [← hxs]; exact List.mem_cons_self _ _
          · rw [← hxs]; exact hfd
          · exact hd1
        · rw [bmStep_ge dist probe b x fd hfd h] at hb1 hd1 ⊢
          exact Or.inl ⟨hb1, hd1⟩
    · exact Or.inr ⟨List.mem_cons_of_mem _ hmem, fd, hfd2, hd2⟩

/-- Helper: a left fold of min is bounded by its seed and by every listed
element. -/
theorem foldlMin_le : ∀ (l : List ℚ) (a : ℚ),
    l.foldl min a ≤ a ∧ ∀ q ∈ l, l.foldl min a ≤ q := by
  intro l
  induction l with
  | nil => intro a; exact ⟨le_refl a, by intro q hq; cases hq⟩
  | cons x xs ih =>
    intro a
    rw [List.foldl_cons]
    refine ⟨le_trans (ih (min a x)).1 (min_le_left a x), ?_⟩
    intro q hq
    rcases List.mem_cons.mp hq with hq | hq
    · subst hq
      exact le_trans (ih (min a q)).1 (min_le_right a q)
    · exact (ih (min a x)).2 q hq

/-- C10: the vanilla matcher starts its accumulator at distance one, so a
gallery identity is returned only when its distance is strictly below one,
and when every computed distance is at least one the result is the sentinel
(no student, distance one) regardless of which entry is actually nearest. -/
theorem accumulatorInitOne :
    ∀ (dist : Descriptor → Descriptor → ℚ) (students : List Student) (probe : Descriptor),
    (∀ s, (Part003.findBestMatch dist students probe).student = some s →
      (Part003.findBestMatch dist students probe).distance < 1) ∧
    ((∀ q ∈ Part003.galleryDistances dist students probe, (1 : ℚ) ≤ q) →
      Part003.findBestMatch dist students probe
        = { student := none, distance := 1 }) := by
  intro dist students probe
  constructor
  · intro s hs
    exact (bmFold_lt_one dist probe students { student := none, distance := 1 }
      (le_refl 1) (by intro s1 h1; cases h1)).2 s hs
  · intro hall
    exact bmFold_keep_one dist probe students hall

/-- Witness for accumulatorInitOne: at distance zero the sample student is
matched with reported distance strictly below one, and at constant distance
two the matcher returns the sentinel accumulator. -/
theorem accumulatorInitOne_witness :
    ((Part003.findBestMatch wDistZero [wStudent] wProbe).distance < 1) ∧
    Part003.findBestMatch wDistTwo [wStudent] wProbe
      = { student := none, distance := 1 } := by
  constructor
  · exact (accumulatorInitOne wDistZero [wStudent] wProbe).1 wStudent (by decide)
  · exact (accumulatorInitOne wDistTwo [wStudent] wProbe).2 (by decide)

/-- C2 counterexample: with one gallery entry at distance two from the probe,
the computed distances are exactly the one-element list holding two, yet the
vanilla findBestMatch reports distance one (the accumulator seed) and no
student, so the result does not carry the minimum computed distance and does
not select the minimum-distance entry as the claim states. -/
theorem findBestMatchClaimCounterexample :
    Part003.galleryDistances wDistTwo [wStudent] wProbe = [2] ∧
    (Part003.findBestMatch wDistTwo [wStudent] wProbe).distance = 1 ∧
    (Part003.findBestMatch wDistTwo [wStudent] wProbe).distance ≠ 2 ∧
    (Part003.findBestMatch wDistTwo [wStudent] wProbe).student = none := by
  refine ⟨rfl, rfl, ?_, rfl⟩
  decide

/-- C2 as amended: the vanilla findBestMatch computes one distance per
gallery entry carrying a descriptor and folds a strict minimum seeded at
one. Its reported distance is the minimum of one and all computed distances,
hence a lower bound of every computed distance and at most one; it reports no
student exactly in the seed state (then the distance is one, also whenever
every computed distance is at least one), it reports some student when a
computed distance is strictly below one, and a reported student is a gallery
member whose descriptor distance equals the reported distance, strictly below
one. The capture loop then accepts the result as a match exactly when a
student is present and the reported distance is strictly below the threshold
(hard-coded six tenths at the call site), reporting unknown otherwise. -/
theorem findBestMatchCharacterization :
    ∀ (dist : Descriptor → Descriptor → ℚ) (students : List Student) (probe : Descriptor),
    (Part003.findBestMatch dist students probe).distance
      = (Part003.galleryDistances dist students probe).foldl min 1 ∧
    (∀ q ∈ Part003.galleryDistances dist students probe,
      (Part003.findBestMatch dist students probe).distance ≤ q) ∧
    (Part003.findBestMatch dist students probe).distance ≤ 1 ∧
    ((Part003.findBestMatch dist students probe).student = none →
      (Part003.findBestMatch dist students probe).distance = 1) ∧
    ((∀ q ∈ Part003.galleryDistances dist students probe, (1 : ℚ) ≤ q) →
      Part003.findBestMatch dist students probe
        = { student := none, distance := 1 }) ∧
    ((∃ q ∈ Part003.galleryDistances dist students probe, q < 1) →
      ((Part003.findBestMatch dist students probe).student).isSome = true) ∧
    (∀ s, (Part003.findBestMatch dist students probe).student = some s →
      s ∈ students ∧ (Part003.findBestMatch dist students probe).distance < 1 ∧
      ∃ fd, s.faceDescriptor = some fd ∧
        (Part003.findBestMatch dist students probe).distance = dist probe fd) ∧
    (∀ t, Part003.isConfidentMatch (Part003.findBestMatch dist students probe) t = true ↔
      ((Part003.findBestMatch dist students probe).student).isSome = true ∧
      (Part003.findBestMatch dist students probe).distance < t) := by
  intro dist students probe
  have hdef : Part003.findBestMatch dist students probe
      = students.foldl (Part003.bmStep dist probe) { student := none, distance := 1 } := rfl
  have hN : ({ student := none, distance := 1 } : Part003.BestMatch).student = none →
      ({ student := none, distance := 1 } : Part003.BestMatch).distance = 1 := by
    intro _; rfl
  refine ⟨?_, ?_, ?_, ?_, ?_, ?_, ?_, ?_⟩
  · exact bmFold_distance dist probe students { student := none, distance := 1 }
  · intro q hq
    rw [hdef, bmFold_distance dist probe students { student := none, distance := 1 }]
    exact (foldlMin_le (Part003.galleryDistances dist students probe) 1).2 q hq
  · rw [hdef, bmFold_distance dist probe students { student := none, distance := 1 }]
    exact (foldlMin_le (Part003.galleryDistances dist students probe) 1).1
  · intro hnone
    rw [hdef] at hnone ⊢
    rw [bmFold_none_eq dist probe students { student := none, distance := 1 } hnone]
  · intro hall
    exact bmFold_keep_one dist probe students hall
  · intro hex
    exact bmFold_some_of_lt dist probe students { student := none, distance := 1 } hN hex
  · intro s hs
    have hlt := (bmFold_lt_one dist probe students { student := none, distance := 1 }
      (le_refl 1) (by intro s1 h1; cases h1)).2 s hs
    rcases bmFold_last_update dist probe students
        { student := none, distance := 1 } s hs with ⟨hb, _⟩ | ⟨hmem, fd, hfd, hd⟩
    · cases hb
    · exact ⟨hmem, hlt, fd, hfd, hd⟩
  · intro t
    simp [Part003.isConfidentMatch]

/-- Witness for findBestMatchCharacterization: at constant distance two the
sample gallery yields the sentinel result, at constant distance zero a
student is carried and it is the sample student with reported distance equal
to its computed distance, and the confident-match guard holds at threshold
one in the zero-distance case. -/
theorem findBestMatchCharacterization_witness :
    Part003.findBestMatch wDistTwo [wStudent] wProbe
      = { student := none, distance := 1 } ∧
    ((Part003.findBestMatch wDistZero [wStudent] wProbe).student).isSome = true ∧
    (wStudent ∈ [wStudent] ∧
      (Part003.findBestMatch wDistZero [wStudent] wProbe).distance < 1 ∧
      ∃ fd, wStudent.faceDescriptor = some fd ∧
        (Part003.findBestMatch wDistZero [wStudent] wProbe).distance
          = wDistZero wProbe fd) ∧
    Part003.isConfidentMatch (Part003.findBestMatch wDistZero [wStudent] wProbe) 1
      = true := by
  refine ⟨?_, ?_, ?_, ?_⟩
  · exact (findBestMatchCharacterization wDistTwo [wStudent] wProbe).2.2.2.2.1 (by decide)
  · exact (findBestMatchCharacterization wDistZero [wStudent] wProbe).2.2.2.2.2.1 (by decide)
  · exact (findBestMatchCharacterization wDistZero [wStudent] wProbe).2.2.2.2.2.2.1
      wStudent (by decide)
  · exact ((findBestMatchCharacterization wDistZero [wStudent] wProbe).2.2.2.2.2.2.2 1).mpr
      (by decide)

/-- Helper: a list on which no element satisfies the boolean predicate
filters to the empty list. -/
theorem filterNilOfAnyFalse {α : Type} (p : α → Bool) :
    ∀ l : List α, l.any p = false → l.filter p = [] := by
  intro l
  induction l with
  | nil => intro _; rfl
  | cons x xs ih =>
    intro h
    rw [List.any_cons] at h
    have hx : p x = false := by
      cases hpx : p x
      · rfl
      · rw [hpx] at h; simp at h
    have hxs : xs.any p = false := by
      cases hxa : xs.any p
      · rfl
      · rw [hxa] at h; simp at h
    simp [List.filter_cons, hx, ih hxs]

/-- Helper: delivering a confident match for a student already present in the
roster of the active session is accepted as a no-op. -/
theorem tick_marked_noop :
    ∀ (st : AppState) (sess : Session) (stu : Student) (label : String) (d : ℚ)
      (now : Nat),
    st.currentSession = some sess →
    st.students.find? (fun s => s.id == label) = some stu →
    (label == unknownLabel) = false →
    sess.attendanceRecords.any (fun r => r.studentId == stu.id) = true →
    AppJs.tickRecordPhase st (some { label := label, distance := d }) now
      = Except.ok st := by
  intro st sess stu label d now hcs hfind hlab hany
  simp [AppJs.tickRecordPhase, hcs, hfind, hlab, hany]

/-- Helper: delivering a confident match for an enrolled student not yet in
the roster appends exactly one mark for that student at the given instant. -/
theorem tick_unmarked_marks :
    ∀ (st : AppState) (sess : Session) (stu : Student) (label : String) (d : ℚ)
      (now : Nat),
    st.currentSession = some sess →
    st.students.find? (fun s => s.id == label) = some stu →
    (label == unknownLabel) = false →
    sess.attendanceRecords.any (fun r => r.studentId == stu.id) = false →
    AppJs.tickRecordPhase st (some { label := label, distance := d }) now
      = Except.ok (markedState st sess stu now) := by
  intro st sess stu label d now hcs hfind hlab hany
  simp [AppJs.tickRecordPhase, hcs, hfind, hlab, hany, markedState]

/-- Helper: once the student is in the roster of the active session, any
further sequence of deliveries of the same identity leaves the state
untouched. -/
theorem deliverSame_marked_fixed :
    ∀ (times : List Nat) (st : AppState) (sess : Session) (stu : Student)
      (label : String) (d : ℚ),
    st.currentSession = some sess →
    st.students.find? (fun s => s.id == label) = some stu →
    (label == unknownLabel) = false →
    sess.attendanceRecords.any (fun r => r.studentId == stu.id) = true →
    AppJs.deliverSame label d st times = Except.ok st := by
  intro times
  induction times with
  | nil => intro st sess stu label d _ _ _ _; rfl
  | cons now rest ih =>
    intro st sess stu label d hcs hfind hlab hany
    have hstep := tick_marked_noop st sess stu label d now hcs hfind hlab hany
    rw [AppJs.deliverSame, hstep]
    exact ih st sess stu label d hcs hfind hlab hany

/-- C1: at-most-once marking. For an active session, an enrolled identity not
yet on the roster, and any non-empty sequence of confident matches of that
identity delivered to the recording step, every delivery is accepted and the
resulting roster holds exactly one attendance mark for the identity; and a
delivery for an identity already on the roster is an idempotent no-op that
returns the state unchanged. -/
theorem atMostOnceMarking :
    (∀ (st : AppState) (sess : Session) (stu : Student) (label : String) (d : ℚ)
       (times : List Nat),
      st.currentSession = some sess →
      st.students.find? (fun s => s.id == label) = some stu →
      (label == unknownLabel) = false →
      sess.attendanceRecords.any (fun r => r.studentId == stu.id) = false →
      times ≠ [] →
      ∃ sess1,
        AppJs.deliverSame label d st times
          = Except.ok { st with currentSession := some sess1 } ∧
        (sess1.attendanceRecords.filter (fun r => r.studentId == stu.id)).length = 1) ∧
    (∀ (st : AppState) (sess : Session) (stu : Student) (label : String) (d : ℚ)
       (now : Nat),
      st.currentSession = some sess →
      st.students.find? (fun s => s.id == label) = some stu →
      (label == unknownLabel) = false →
      sess.attendanceRecords.any (fun r => r.studentId == stu.id) = true →
      AppJs.tickRecordPhase st (some { label := label, distance := d }) now
        = Except.ok st) := by
  constructor
  · intro st sess stu label d times hcs hfind hlab hany hne
    cases times with
    | nil => exact absurd rfl hne
    | cons now rest =>
      have hstep := tick_unmarked_marks st sess stu label d now hcs hfind hlab hany
      have hmark : (markedState st sess stu now).currentSession
          = some { sess with attendanceRecords := sess.attendanceRecords ++
              [{ studentId := stu.id, studentName := stu.name, timestamp := now }] } := rfl
      have hany1 : ({ sess with attendanceRecords := sess.attendanceRecords ++
            [{ studentId := stu.id, studentName := stu.name, timestamp := now }] }
            : Session).attendanceRecords.any (fun r => r.studentId == stu.id) = true := by
        simp [List.any_append, hany]
      have hfix := deliverSame_marked_fixed rest (markedState st sess stu now)
        { sess with attendanceRecords := sess.attendanceRecords ++
            [{ studentId := stu.id, studentName := stu.name, timestamp := now }] }
        stu label d hmark hfind hlab hany1
      refine ⟨{ sess with attendanceRecords := sess.attendanceRecords ++
          [{ studentId := stu.id, studentName := stu.name, timestamp := now }] }, ?_, ?_⟩
      · rw [AppJs.deliverSame, hstep]
        exact hfix
      · rw [List.filter_append,
          filterNilOfAnyFalse (fun r => r.studentId == stu.id) sess.attendanceRecords hany]
        simp
  · intro st sess stu label d now hcs hfind hlab hany
    exact tick_marked_noop st sess stu label d now hcs hfind hlab hany

/-- Witness for atMostOnceMarking: delivering the sample student three times
to the sample empty session marks once, and delivering to the already-marked
session is accepted unchanged. -/
theorem atMostOnceMarking_witness :
    (∃ sess1,
      AppJs.deliverSame wStudent.id 0 wState [1, 2, 3]
        = Except.ok { wState with currentSession := some sess1 } ∧
      (sess1.attendanceRecords.filter (fun r => r.studentId == wStudent.id)).length = 1) ∧
    AppJs.tickRecordPhase wStateMarked
        (some { label := wStudent.id, distance := 0 }) 7
      = Except.ok wStateMarked := by
  constructor
  · exact (atMostOnceMarking).1 wState wSession wStudent wStudent.id 0 [1, 2, 3]
      rfl rfl rfl rfl (by decide)
  · exact (atMostOnceMarking).2 wStateMarked wSessionMarked wStudent wStudent.id 0 7
      rfl rfl rfl rfl

/-- Helper: endSession always clears the current session. -/
theorem endSession_clears : ∀ st : AppState,
    ((AppJs.endSession st).1).currentSession = none := by
  intro st
  cases hcs : st.currentSession with
  | none => simp [AppJs.endSession, AppJs.stopAttendance, hcs]
  | some sess =>
    by_cases hl : 0 < sess.attendanceRecords.length
    · simp [AppJs.endSession, AppJs.stopAttendance, hcs, hl]
    · simp [AppJs.endSession, AppJs.stopAttendance, hcs, hl]

/-- Helper: on a state with no current session, the recording step either
raises a TypeError or returns the state unchanged; whenever it returns
normally, the state is unchanged. -/
theorem tick_closed :
    ∀ (st : AppState) (m : Option FaceJs.FaceMatch) (now : Nat) (st1 : AppState),
    st.currentSession = none →
    AppJs.tickRecordPhase st m now = Except.ok st1 → st1 = st := by
  intro st m now st1 hcs h
  cases m with
  | none =>
    simp [AppJs.tickRecordPhase] at h
    exact h.symm
  | some fm =>
    by_cases hl : (fm.label == unknownLabel) = true
    · simp [AppJs.tickRecordPhase, hl] at h
      exact h.symm
    · simp [AppJs.tickRecordPhase, hl, hcs] at h

/-- C6: no marks after close. Once endSession has run, the current session is
cleared, and any subsequently resumed recognition tick (including one whose
embedding extraction was already in flight when close ran, since the source
re-reads state.currentSession only at recording time) either raises a
TypeError or returns with the state unchanged; in every normal return, the
historical records, and hence the roster of every closed session stored
there, are exactly those endSession left, and the current session is still
cleared. -/
theorem noMarksAfterClose :
    ∀ (st : AppState) (matchResult : Option FaceJs.FaceMatch) (now : Nat),
    ((AppJs.endSession st).1).currentSession = none ∧
    ∀ st1,
      AppJs.tickRecordPhase (AppJs.endSession st).1 matchResult now
        = Except.ok st1 →
      st1.attendanceRecords = ((AppJs.endSession st).1).attendanceRecords ∧
      st1.currentSession = none := by
  intro st m now
  refine ⟨endSession_clears st, ?_⟩
  intro st1 h
  have heq := tick_closed (AppJs.endSession st).1 m now st1 (endSession_clears st) h
  rw [heq]
  exact ⟨rfl, endSession_clears st⟩

/-- Witness for noMarksAfterClose: after closing the sample marked session,
a tick resuming with an unknown-label result returns normally and leaves the
historical records and the cleared current session untouched. -/
theorem noMarksAfterClose_witness :
    ((AppJs.endSession wStateMarked).1).currentSession = none ∧
    ((AppJs.endSession wStateMarked).1).attendanceRecords
      = ((AppJs.endSession wStateMarked).1).attendanceRecords ∧
    ((AppJs.endSession wStateMarked).1).currentSession = none := by
  refine ⟨(noMarksAfterClose wStateMarked (some wUnknownMatch) 9).1, ?_⟩
  exact (noMarksAfterClose wStateMarked (some wUnknownMatch) 9).2
    (AppJs.endSession wStateMarked).1 rfl
